import Mathlib

/-!  Verification development for the solar-plus-battery scheduling repository.

The definitions below are shallow embeddings, over exact rationals, of:
  * the shared configuration of `SimplifiedOptimizer` / `GurobiEnergyOptimizer`,
  * the Gurobi MILP of `gurobi_energy_optimization.py` (`build_and_solve`), as a
    feasibility predicate over a candidate solution plus its objective,
  * the greedy heuristic of `simplified_optimization.py` (`optimize_greedy`),
    translated period by period (decision branches, ramp-rate adjustment,
    state-of-charge update with clipping),
  * the PuLP linear program of `linear_programming_optimization.py` as a
    feasibility predicate,
  * the revenue reporters of `extract_results` (gurobi), `_calculate_revenue`
    (simplified) and `_calculate_revenue` (daytime_storage_optimization).
-/

namespace SolarPerfect

/-- Constructor parameters shared by `SimplifiedOptimizer.__init__` and
`GurobiEnergyOptimizer.__init__` (same names, same defaults in the source). -/
structure Config where
  lgc_price : ℚ
  poa_to_power_ratio : ℚ
  battery_max_charge : ℚ
  battery_max_discharge : ℚ
  battery_capacity : ℚ
  charge_efficiency : ℚ
  discharge_efficiency : ℚ
  ramp_rate : ℚ
  initial_soc : ℚ
deriving DecidableEq

/-- self.lgc_price = lgc_price / 1000 (AUD/MWh converted to AUD/kWh). -/
def Config.lgc (c : Config) : ℚ := c.lgc_price / 1000

/-- self.dt = 5 / 60 (period width in hours, fixed in both constructors). -/
def Config.dt (_c : Config) : ℚ := 5 / 60

/-- self.max_ramp = ramp_rate * 300 (maximal export change per 5 minutes). -/
def Config.max_ramp (c : Config) : ℚ := c.ramp_rate * 300

/-- min_export_price = -self.lgc_price (as computed in `optimize_greedy` and
`build_and_solve`). -/
def Config.min_export_price (c : Config) : ℚ := -c.lgc

/-- Well-formedness of the physical parameters (positive efficiencies,
nonnegative powers, capacity and ramp rate). -/
def Config.WF (c : Config) : Prop :=
  0 < c.charge_efficiency ∧ 0 < c.discharge_efficiency ∧
  0 ≤ c.battery_max_charge ∧ 0 ≤ c.battery_max_discharge ∧
  0 ≤ c.battery_capacity ∧ 0 ≤ c.ramp_rate

instance (c : Config) : Decidable c.WF := by unfold Config.WF; infer_instance

/-- Generation model of `load_data`:
`self.data['pv_power'] = self.data['poa'] * self.poa_to_power_ratio / 1000`. -/
def pv_power (c : Config) (poa : ℚ) : ℚ := poa * c.poa_to_power_ratio / 1000

/-- `load_data` of `SimplifiedOptimizer` / `GurobiEnergyOptimizer`: each input
row `(poa, rrp)` is mapped, without any validation, to `(pv_power, rrp)`. -/
def load_data (c : Config) (rows : List (ℚ × ℚ)) : List (ℚ × ℚ) :=
  rows.map fun pr => (pv_power c pr.1, pr.2)

/-- PV power of `linear_programming_optimization.py`:
`df['PV_Power_kW'] = df['POA'] * PV_CAPACITY * POA_TO_POWER_(conversion) / 1000`. -/
def PV_Power_kW (pv_capacity conv poa : ℚ) : ℚ := poa * pv_capacity * conv / 1000

/-- pandas `Series.quantile` with the default linear interpolation, as used on
`self.data['rrp']` in `optimize_greedy`. -/
def quantile (q : ℚ) (l : List ℚ) : ℚ :=
  let s := List.insertionSort (fun a b : ℚ => a ≤ b) l
  let pos : ℚ := q * ((s.length : ℚ) - 1)
  let i : ℕ := (Int.floor pos).toNat
  let lo := s.getD i 0
  let hi := s.getD (i + 1) lo
  lo + (hi - lo) * (pos - (i : ℚ))

/-- The four power decisions computed by one branch of the decision logic in
`optimize_greedy` (before the ramp-rate adjustment). -/
structure Action where
  P_charge : ℚ
  P_discharge : ℚ
  P_grid_import : ℚ
  P_grid_export : ℚ
deriving DecidableEq

/-- Decision logic of `optimize_greedy` (lines 120-173 of
simplified_optimization.py), one period, before the ramp-rate adjustment.
The four decision rows are: negative price, low price (below the 25 %
quantile), high price (above the 75 % quantile), and the middle band. -/
def greedyAction (c : Config) (rrp_25 rrp_75 soc pv rrp : ℚ) : Action :=
  if rrp < 0 then
    let P_grid_import := min c.battery_max_charge
      ((c.battery_capacity - soc) / (c.dt * c.charge_efficiency))
    if P_grid_import < c.battery_max_charge then
      let pv_to_battery := min pv (min (c.battery_max_charge - P_grid_import)
        ((c.battery_capacity - soc) / (c.dt * c.charge_efficiency) - P_grid_import))
      ⟨P_grid_import + pv_to_battery, 0, P_grid_import,
        if pv - pv_to_battery > 0 then pv - pv_to_battery else 0⟩
    else
      ⟨P_grid_import, 0, P_grid_import, if pv > 0 then pv else 0⟩
  else if rrp < rrp_25 then
    if soc < 0.8 * c.battery_capacity then
      let pv_to_battery := min pv (min c.battery_max_charge
        ((c.battery_capacity - soc) / (c.dt * c.charge_efficiency)))
      if rrp < rrp_25 * 0.5 ∧ soc < 0.3 * c.battery_capacity then
        let grid_charge := min (c.battery_max_charge - pv_to_battery)
          ((c.battery_capacity - soc) / (c.dt * c.charge_efficiency) - pv_to_battery)
        ⟨pv_to_battery + grid_charge, 0, grid_charge, pv - pv_to_battery⟩
      else
        ⟨pv_to_battery, 0, 0, pv - pv_to_battery⟩
    else
      ⟨0, 0, 0, pv⟩
  else if rrp_75 < rrp then
    if 0.1 * c.battery_capacity < soc ∧ c.min_export_price < rrp then
      let P_discharge := min c.battery_max_discharge
        (soc * c.discharge_efficiency / c.dt)
      ⟨0, P_discharge, 0, pv + P_discharge⟩
    else
      ⟨0, 0, 0, pv⟩
  else
    ⟨0, 0, 0, if c.min_export_price < rrp then pv else 0⟩

/-- Ramp-rate adjustment of `optimize_greedy` (lines 175-185): clamp the
tentative export to the ramp band around the previous export and, inside the
clamped branch, cut it down to `pv + P_discharge` if it exceeds that. -/
def applyRampLimit (c : Config) (prev_grid_export pv P_discharge e0 : ℚ) : ℚ :=
  if |e0 - prev_grid_export| > c.max_ramp then
    let e1 := if e0 > prev_grid_export then prev_grid_export + c.max_ramp
              else max 0 (prev_grid_export - c.max_ramp)
    if e1 > pv + P_discharge then pv + P_discharge else e1
  else e0

/-- One recorded period of the greedy schedule.  `soc_before`, `prev_export`
and `tentative_export` record the loop state and the pre-adjustment export of
the same iteration; `SOC` is the clipped post-period state of charge that the
source stores in the results row. -/
structure Decision where
  pv : ℚ
  rrp : ℚ
  soc_before : ℚ
  prev_export : ℚ
  P_charge : ℚ
  P_discharge : ℚ
  P_grid_import : ℚ
  tentative_export : ℚ
  P_grid_export : ℚ
  SOC : ℚ
deriving DecidableEq

/-- Default row used only to read elements out of concrete schedules. -/
def dfltDecision : Decision := ⟨0, 0, 0, 0, 0, 0, 0, 0, 0, 0⟩

/-- One iteration of the `optimize_greedy` loop: branch decision, ramp-rate
adjustment, then `soc += P_charge*dt*eta_c; soc -= P_discharge*dt/eta_d;
soc = np.clip(soc, 0, E_capacity)`. -/
def greedyStep (c : Config) (rrp_25 rrp_75 soc prev_grid_export pv rrp : ℚ) :
    Decision :=
  let a := greedyAction c rrp_25 rrp_75 soc pv rrp
  let e := applyRampLimit c prev_grid_export pv a.P_discharge a.P_grid_export
  ⟨pv, rrp, soc, prev_grid_export, a.P_charge, a.P_discharge, a.P_grid_import,
    a.P_grid_export, e,
    min (max (soc + a.P_charge * c.dt * c.charge_efficiency
      - a.P_discharge * c.dt / c.discharge_efficiency) 0) c.battery_capacity⟩

/-- The main loop of `optimize_greedy`, threading `soc` and
`prev_grid_export` through the period sequence. -/
def greedyGo (c : Config) (rrp_25 rrp_75 : ℚ) :
    ℚ → ℚ → List (ℚ × ℚ) → List Decision
  | _, _, [] => []
  | soc, prev, p :: rest =>
    let d := greedyStep c rrp_25 rrp_75 soc prev p.1 p.2
    d :: greedyGo c rrp_25 rrp_75 d.SOC d.P_grid_export rest

/-- `SimplifiedOptimizer.optimize_greedy` on loaded data given as
`(pv_power, rrp)` pairs: price quantiles are computed over the whole series,
the loop starts from `soc = initial_soc * E_capacity` and
`prev_grid_export = 0`. -/
def optimize_greedy (c : Config) (data : List (ℚ × ℚ)) : List Decision :=
  greedyGo c (quantile (1/4) (data.map Prod.snd))
    (quantile (3/4) (data.map Prod.snd))
    (c.initial_soc * c.battery_capacity) 0 data

/-- Implicit per-period curtailment of a greedy schedule row: the residual of
the energy balance (the source records no curtailment column). -/
def Decision.curtailed (d : Decision) : ℚ :=
  d.pv + d.P_discharge + d.P_grid_import - d.P_charge - d.P_grid_export

/-- The period's export was moved by the downward ramp clamp (the branch
`P_grid_export = max(0, prev_grid_export - max_ramp)` of the adjustment). -/
def rampedDown (c : Config) (d : Decision) : Prop :=
  |d.tentative_export - d.prev_export| > c.max_ramp ∧
    ¬ d.tentative_export > d.prev_export

instance (c : Config) (d : Decision) : Decidable (rampedDown c d) := by
  unfold rampedDown; infer_instance

/-- A candidate solution of the Gurobi model: one value per decision variable
of `build_and_solve` (SOC has `n + 1` entries, the binaries are Booleans). -/
structure GurobiSol where
  P_charge : ℕ → ℚ
  P_discharge : ℕ → ℚ
  P_grid_import : ℕ → ℚ
  P_grid_export : ℕ → ℚ
  SOC : ℕ → ℚ
  is_charging : ℕ → Bool
  is_discharging : ℕ → Bool

/-- Feasibility for the Gurobi MILP built by
`GurobiEnergyOptimizer.build_and_solve`: variable bounds, initial SOC, SOC
recurrence, power balance (note: no curtailment variable exists), big-M
mutual exclusion with `M = max(P_charge_max, P_discharge_max)`, ramp-rate
band on the export, and the hard export ban when `rrp < -lgc_price`. -/
def GurobiFeasible (c : Config) (pv rrp : ℕ → ℚ) (n : ℕ) (s : GurobiSol) :
    Prop :=
  (∀ t, t < n → 0 ≤ s.P_charge t ∧ s.P_charge t ≤ c.battery_max_charge) ∧
  (∀ t, t < n → 0 ≤ s.P_discharge t ∧ s.P_discharge t ≤ c.battery_max_discharge) ∧
  (∀ t, t < n → 0 ≤ s.P_grid_import t) ∧
  (∀ t, t < n → 0 ≤ s.P_grid_export t) ∧
  (∀ t, t ≤ n → 0 ≤ s.SOC t ∧ s.SOC t ≤ c.battery_capacity) ∧
  s.SOC 0 = c.initial_soc * c.battery_capacity ∧
  (∀ t, t < n → s.SOC (t + 1) = s.SOC t
      + s.P_charge t * c.dt * c.charge_efficiency
      - s.P_discharge t * c.dt / c.discharge_efficiency) ∧
  (∀ t, t < n → pv t + s.P_discharge t + s.P_grid_import t
      = s.P_charge t + s.P_grid_export t) ∧
  (∀ t, t < n → (if s.is_charging t then (1 : ℚ) else 0)
      + (if s.is_discharging t then (1 : ℚ) else 0) ≤ 1) ∧
  (∀ t, t < n → s.P_charge t
      ≤ max c.battery_max_charge c.battery_max_discharge
        * (if s.is_charging t then (1 : ℚ) else 0)) ∧
  (∀ t, t < n → s.P_discharge t
      ≤ max c.battery_max_charge c.battery_max_discharge
        * (if s.is_discharging t then (1 : ℚ) else 0)) ∧
  (∀ t, t < n → 1 ≤ t →
      s.P_grid_export t - s.P_grid_export (t - 1) ≤ c.max_ramp ∧
      s.P_grid_export (t - 1) - s.P_grid_export t ≤ c.max_ramp) ∧
  (∀ t, t < n → rrp t < c.min_export_price → s.P_grid_export t = 0)

/-- Objective of the Gurobi model: export revenue minus import cost plus the
LGC term `pv * dt * lgc_price` on generated power. -/
def gurobiObjective (c : Config) (pv rrp : ℕ → ℚ) (n : ℕ) (s : GurobiSol) : ℚ :=
  ∑ t in Finset.range n,
    (s.P_grid_export t * c.dt * rrp t - s.P_grid_import t * c.dt * rrp t
      + pv t * c.dt * c.lgc)

/-- Configuration constants of `linear_programming_optimization.py`
(`OptimizationConfig`). -/
structure LPConfig where
  NEL : ℚ
  NIL : ℚ
  BATTERY_MAX_CHARGE_POWER : ℚ
  BATTERY_MAX_DISCHARGE_POWER : ℚ
  BATTERY_CAPACITY : ℚ
  CHARGE_EFFICIENCY : ℚ
  DISCHARGE_EFFICIENCY : ℚ
  LGC : ℚ
  INTERVAL_HOURS : ℚ
deriving DecidableEq

/-- A candidate solution of the PuLP model (all quantities in kWh). -/
structure LPSol where
  charge_grid : ℕ → ℚ
  charge_pv : ℕ → ℚ
  discharge : ℕ → ℚ
  soc : ℕ → ℚ
  export_pv : ℕ → ℚ
  export_battery : ℕ → ℚ
  curtail : ℕ → ℚ

/-- Feasibility for the PuLP linear program (variable bounds and the five
constraint families of the source: PV balance, SOC recurrence with implicit
initial SOC 0, battery-export link, NEL export limit, LGC export ban). -/
def LPFeasible (c : LPConfig) (pvE rrp : ℕ → ℚ) (n : ℕ) (s : LPSol) : Prop :=
  (∀ t, t < n → 0 ≤ s.charge_grid t ∧ s.charge_grid t ≤ c.NIL * c.INTERVAL_HOURS) ∧
  (∀ t, t < n → 0 ≤ s.charge_pv t ∧ s.charge_pv t ≤ pvE t) ∧
  (∀ t, t < n → 0 ≤ s.discharge t ∧
      s.discharge t ≤ c.BATTERY_MAX_DISCHARGE_POWER * c.INTERVAL_HOURS) ∧
  (∀ t, t < n → 0 ≤ s.soc t ∧ s.soc t ≤ c.BATTERY_CAPACITY) ∧
  (∀ t, t < n → 0 ≤ s.export_pv t ∧ s.export_pv t ≤ pvE t) ∧
  (∀ t, t < n → 0 ≤ s.export_battery t) ∧
  (∀ t, t < n → 0 ≤ s.curtail t ∧ s.curtail t ≤ pvE t) ∧
  (∀ t, t < n → s.charge_pv t + s.export_pv t + s.curtail t = pvE t) ∧
  (∀ t, t < n → s.soc t = (if t = 0 then 0 else s.soc (t - 1))
      + (s.charge_pv t + s.charge_grid t) * c.CHARGE_EFFICIENCY
      - s.discharge t / c.DISCHARGE_EFFICIENCY) ∧
  (∀ t, t < n → s.export_battery t = s.discharge t * c.DISCHARGE_EFFICIENCY) ∧
  (∀ t, t < n → (s.export_pv t + s.export_battery t) / c.INTERVAL_HOURS ≤ c.NEL) ∧
  (∀ t, t < n → rrp t ≤ c.LGC → s.export_pv t = 0 ∧ s.export_battery t = 0)

/-- Per-period revenue figures computed by a reporter. -/
structure RevenueRow where
  export_revenue : ℚ
  import_cost : ℚ
  lgc_revenue : ℚ
  net_revenue : ℚ
deriving DecidableEq

/-- Revenue columns of `GurobiEnergyOptimizer.extract_results`. -/
def extract_results_revenue (c : Config) (P_grid_export P_grid_import pv rrp : ℚ) :
    RevenueRow :=
  ⟨P_grid_export * c.dt * rrp, P_grid_import * c.dt * rrp, pv * c.dt * c.lgc,
    P_grid_export * c.dt * rrp - P_grid_import * c.dt * rrp + pv * c.dt * c.lgc⟩

/-- Revenue columns of `SimplifiedOptimizer._calculate_revenue`. -/
def calculate_revenue_row (c : Config) (P_grid_export P_grid_import pv rrp : ℚ) :
    RevenueRow :=
  ⟨P_grid_export * c.dt * rrp, P_grid_import * c.dt * rrp, pv * c.dt * c.lgc,
    P_grid_export * c.dt * rrp - P_grid_import * c.dt * rrp + pv * c.dt * c.lgc⟩

/-- Revenue columns of `DaytimeStorageOptimizer._calculate_revenue`: the LGC
term is computed from `(P_grid_export + P_pv_curtail)`, not from the
generated power. -/
def daytime_calculate_revenue_row (c : Config)
    (P_grid_export P_grid_import P_pv_curtail rrp : ℚ) : RevenueRow :=
  ⟨P_grid_export * c.dt * rrp, P_grid_import * c.dt * rrp,
    (P_grid_export + P_pv_curtail) * c.dt * c.lgc,
    P_grid_export * c.dt * rrp - P_grid_import * c.dt * rrp
      + (P_grid_export + P_pv_curtail) * c.dt * c.lgc⟩

/-- Total net revenue of a greedy schedule, summing the per-row
`net_revenue` of `_calculate_revenue`. -/
def total_net_revenue (c : Config) (ds : List Decision) : ℚ :=
  (ds.map fun d =>
    (calculate_revenue_row c d.P_grid_export d.P_grid_import d.pv d.rrp).net_revenue).sum

/-- Per-row guarantees of one greedy iteration, stated over the recorded
fields of the row itself. -/
def DecisionSpec (c : Config) (d : Decision) : Prop :=
  0 ≤ d.P_charge ∧ 0 ≤ d.P_discharge ∧ 0 ≤ d.P_grid_import ∧
  0 ≤ d.P_grid_export ∧
  (d.P_charge = 0 ∨ d.P_discharge = 0) ∧
  (¬ rampedDown c d → 0 ≤ d.curtailed) ∧
  d.P_grid_export - d.prev_export ≤ c.max_ramp ∧
  (d.prev_export - d.P_grid_export ≤ c.max_ramp ∨
    d.P_grid_export = d.pv + d.P_discharge)

end SolarPerfect

namespace SolarPerfect

instance (c : Config) (pv rrp : ℕ → ℚ) (n : ℕ) (s : GurobiSol) :
    Decidable (GurobiFeasible c pv rrp n s) := by
  unfold GurobiFeasible; infer_instance

instance (c : LPConfig) (pvE rrp : ℕ → ℚ) (n : ℕ) (s : LPSol) :
    Decidable (LPFeasible c pvE rrp n s) := by
  unfold LPFeasible; infer_instance

end SolarPerfect
namespace SolarPerfect

/-- Default constructor arguments of both optimizers in the source. -/
def cfgA : Config := ⟨10, 3.79, 250, 250, 1000, 0.95, 0.95, 16.67, 0.5⟩

/-- Default parameters with a full initial battery. -/
def cfg5 : Config := ⟨10, 3.79, 250, 250, 1000, 0.95, 0.95, 16.67, 1⟩

/-- Test configuration with unit POA conversion and a tight ramp rate. -/
def cfg1 : Config := ⟨10, 1000, 250, 250, 1000, 0.95, 0.95, 0.1, 0.5⟩

/-- Test configuration with ramp rate 1/3 (max export change 100 kW). -/
def cfg6 : Config := ⟨10, 1000, 250, 250, 1000, 0.95, 0.95, 1/3, 0.5⟩

/-- Test configuration with a full initial battery and tight ramp rate. -/
def cfg7 : Config := ⟨10, 1000, 250, 250, 1000, 0.95, 0.95, 0.1, 1⟩

/-- Three-period horizon (pv, rrp): price spike, middle band, low price. -/
def data1 : List (ℚ × ℚ) := [(0, 14), (60, 8), (20, 1)]

/-- Three-period horizon with a large middle-band generation peak. -/
def data6 : List (ℚ × ℚ) := [(0, 14), (200, 8), (0, 1)]

/-- One-period horizon in the middle price band. -/
def dataA : List (ℚ × ℚ) := [(100, 1/50)]

/-- One-period horizon with a negative (above-floor) price. -/
def data7 : List (ℚ × ℚ) := [(200, -1/200)]

/-- Constant generation series, 100 kW. -/
def pvA : ℕ → ℚ := fun _ => 100

/-- Constant price series, 0.02 AUD/kWh. -/
def rrpA : ℕ → ℚ := fun _ => 1/50

/-- Gurobi point: export all generation, battery idle at half charge. -/
def sol1 : GurobiSol :=
  ⟨fun _ => 0, fun _ => 0, fun _ => 0, fun _ => 100, fun _ => 500,
    fun _ => false, fun _ => false⟩

/-- Constant generation series, 100 kW. -/
def pv3 : ℕ → ℚ := fun _ => 100

/-- Constant price series, -5 AUD/kWh (below the export floor). -/
def rrp3 : ℕ → ℚ := fun _ => -5

/-- Gurobi point: charge all generation during a below-floor period. -/
def sol3 : GurobiSol :=
  ⟨fun _ => 100, fun _ => 0, fun _ => 0, fun _ => 0,
    fun t => if t = 0 then 500 else 6095/12, fun _ => true, fun _ => false⟩

/-- Constant generation series, 200 kW. -/
def pv7 : ℕ → ℚ := fun _ => 200

/-- Constant price series, -0.005 AUD/kWh (negative, above the floor). -/
def rrp7 : ℕ → ℚ := fun _ => -1/200

/-- Gurobi point: full battery forces exporting all generation. -/
def sol7 : GurobiSol :=
  ⟨fun _ => 0, fun _ => 0, fun _ => 0, fun _ => 200, fun _ => 1000,
    fun _ => false, fun _ => false⟩

/-- The `OptimizationConfig` constants of linear_programming_optimization.py. -/
def lpCfg : LPConfig := ⟨3880, 670, 670, 2400, 4000, 0.95, 0.95, -10, 5/60⟩

/-- Zero PV-energy series. -/
def pvE0 : ℕ → ℚ := fun _ => 0

/-- Constant price series, -20 AUD/MWh (below the LGC floor). -/
def rrpL : ℕ → ℚ := fun _ => -20

/-- The all-zero point of the PuLP model. -/
def lpSol0 : LPSol :=
  ⟨fun _ => 0, fun _ => 0, fun _ => 0, fun _ => 0, fun _ => 0, fun _ => 0,
    fun _ => 0⟩

end SolarPerfect
namespace SolarPerfect

theorem greedyAction_spec (c : Config) (r25 r75 soc pv rrp : ℚ)
    (hWF : c.WF) (h0 : 0 ≤ soc) (h1 : soc ≤ c.battery_capacity) (hpv : 0 ≤ pv) :
    0 ≤ (greedyAction c r25 r75 soc pv rrp).P_charge ∧
    0 ≤ (greedyAction c r25 r75 soc pv rrp).P_discharge ∧
    0 ≤ (greedyAction c r25 r75 soc pv rrp).P_grid_import ∧
    0 ≤ (greedyAction c r25 r75 soc pv rrp).P_grid_export ∧
    (greedyAction c r25 r75 soc pv rrp).P_grid_export
      ≤ pv + (greedyAction c r25 r75 soc pv rrp).P_discharge ∧
    0 ≤ pv + (greedyAction c r25 r75 soc pv rrp).P_discharge
      + (greedyAction c r25 r75 soc pv rrp).P_grid_import
      - (greedyAction c r25 r75 soc pv rrp).P_charge
      - (greedyAction c r25 r75 soc pv rrp).P_grid_export := by
  obtain ⟨hec, hed, hPc, hPd, hcap, hr⟩ := hWF
  have hdt : (0:ℚ) < c.dt := by norm_num [Config.dt]
  have hden : (0:ℚ) < c.dt * c.charge_efficiency := mul_pos hdt hec
  simp only [greedyAction]
  set H := (c.battery_capacity - soc) / (c.dt * c.charge_efficiency) with hHdef
  have hH : 0 ≤ H := div_nonneg (by linarith) (le_of_lt hden)
  set gi := min c.battery_max_charge H with hgidef
  have hgi0 : 0 ≤ gi := le_min hPc hH
  have hgi1 : gi ≤ c.battery_max_charge := min_le_left _ _
  have hgi2 : gi ≤ H := min_le_right _ _
  set ptb1 := min pv (min (c.battery_max_charge - gi) (H - gi)) with hptb1def
  have hptb10 : 0 ≤ ptb1 := le_min hpv (le_min (by linarith) (by linarith))
  have hptb11 : ptb1 ≤ pv := min_le_left _ _
  set ptb2 := min pv (min c.battery_max_charge H) with hptb2def
  have hptb20 : 0 ≤ ptb2 := le_min hpv (le_min hPc hH)
  have hptb21 : ptb2 ≤ pv := min_le_left _ _
  have hptb22 : ptb2 ≤ c.battery_max_charge :=
    le_trans (min_le_right _ _) (min_le_left _ _)
  have hptb23 : ptb2 ≤ H := le_trans (min_le_right _ _) (min_le_right _ _)
  set g2 := min (c.battery_max_charge - ptb2) (H - ptb2) with hg2def
  have hg20 : 0 ≤ g2 := le_min (by linarith) (by linarith)
  set dis := min c.battery_max_discharge (soc * c.discharge_efficiency / c.dt) with hdisdef
  have hdis0 : 0 ≤ dis :=
    le_min hPd (div_nonneg (mul_nonneg h0 (le_of_lt hed)) (le_of_lt hdt))
  split_ifs with hb1 hb2 hb3 hb4 hb5 hb6 hb7 hb8 hb9 hb10 <;>
    refine ⟨?_, ?_, ?_, ?_, ?_, ?_⟩ <;> dsimp only <;> linarith

theorem greedyAction_mutex (c : Config) (r25 r75 soc pv rrp : ℚ) :
    (greedyAction c r25 r75 soc pv rrp).P_charge = 0 ∨
    (greedyAction c r25 r75 soc pv rrp).P_discharge = 0 := by
  simp only [greedyAction]
  split_ifs <;> simp

theorem applyRampLimit_spec (c : Config) (prev pv dis e0 : ℚ)
    (hr : 0 ≤ c.ramp_rate) (hprev : 0 ≤ prev) (hpv : 0 ≤ pv) (hdis : 0 ≤ dis)
    (he0 : 0 ≤ e0) (hub : e0 ≤ pv + dis) :
    0 ≤ applyRampLimit c prev pv dis e0 ∧
    applyRampLimit c prev pv dis e0 - prev ≤ c.max_ramp ∧
    (prev - applyRampLimit c prev pv dis e0 ≤ c.max_ramp ∨
      applyRampLimit c prev pv dis e0 = pv + dis) ∧
    (¬ (|e0 - prev| > c.max_ramp ∧ ¬ e0 > prev) →
      applyRampLimit c prev pv dis e0 ≤ e0) := by
  have hm : 0 ≤ c.max_ramp := mul_nonneg hr (by norm_num)
  simp only [applyRampLimit]
  split_ifs with h1 h2 h3 h4
  · -- clamp up, cut to pv + dis: impossible since e0 ≤ pv + dis
    exfalso
    rw [abs_of_pos (by linarith : (0:ℚ) < e0 - prev)] at h1
    linarith
  · -- clamp up, no cut
    rw [abs_of_pos (by linarith : (0:ℚ) < e0 - prev)] at h1
    exact ⟨by linarith, by linarith, Or.inl (by linarith), fun _ => by linarith⟩
  · -- clamp down, cut to pv + dis
    have hmx : max 0 (prev - c.max_ramp) ≤ prev := max_le hprev (by linarith)
    exact ⟨by linarith, by linarith, Or.inr rfl, fun hcon => (hcon ⟨h1, h2⟩).elim⟩
  · -- clamp down, no cut
    have hmx : max 0 (prev - c.max_ramp) ≤ prev := max_le hprev (by linarith)
    have hmx2 : prev - c.max_ramp ≤ max 0 (prev - c.max_ramp) := le_max_right _ _
    exact ⟨le_max_left _ _, by linarith, Or.inl (by linarith),
      fun hcon => (hcon ⟨h1, h2⟩).elim⟩
  · -- no clamp
    have hle := abs_le.mp (not_lt.mp h1)
    exact ⟨he0, by linarith [hle.2], Or.inl (by linarith [hle.1]), fun _ => le_refl _⟩

theorem greedyStep_spec (c : Config) (r25 r75 soc prev pv rrp : ℚ)
    (hWF : c.WF) (h0 : 0 ≤ soc) (h1 : soc ≤ c.battery_capacity)
    (hprev : 0 ≤ prev) (hpv : 0 ≤ pv) :
    DecisionSpec c (greedyStep c r25 r75 soc prev pv rrp) ∧
    0 ≤ (greedyStep c r25 r75 soc prev pv rrp).SOC ∧
    (greedyStep c r25 r75 soc prev pv rrp).SOC ≤ c.battery_capacity := by
  obtain ⟨ha1, ha2, ha3, ha4, ha5, ha6⟩ :=
    greedyAction_spec c r25 r75 soc pv rrp hWF h0 h1 hpv
  have hmx := greedyAction_mutex c r25 r75 soc pv rrp
  obtain ⟨hec, hed, hPc, hPd, hcap, hr⟩ := hWF
  obtain ⟨hr1, hr2, hr3, hr4⟩ := applyRampLimit_spec c prev pv
      (greedyAction c r25 r75 soc pv rrp).P_discharge
      (greedyAction c r25 r75 soc pv rrp).P_grid_export hr hprev hpv ha2 ha4 ha5
  unfold DecisionSpec Decision.curtailed rampedDown greedyStep
  dsimp only
  refine ⟨⟨ha1, ha2, ha3, hr1, hmx, fun hnd => by linarith [hr4 hnd], hr2, hr3⟩,
    le_min (le_max_right _ _) hcap, min_le_right _ _⟩

theorem greedyGo_mem_spec (c : Config) (r25 r75 : ℚ) (hWF : c.WF) :
    ∀ (data : List (ℚ × ℚ)) (soc prev : ℚ),
      0 ≤ soc → soc ≤ c.battery_capacity → 0 ≤ prev →
      (∀ p ∈ data, 0 ≤ p.1) →
      ∀ d ∈ greedyGo c r25 r75 soc prev data,
        DecisionSpec c d ∧ 0 ≤ d.SOC ∧ d.SOC ≤ c.battery_capacity := by
  intro data
  induction data with
  | nil => intro soc prev _ _ _ _ d hd; simp [greedyGo] at hd
  | cons p rest ih =>
    intro soc prev h0 h1 hprev hdata d hd
    have hp : 0 ≤ p.1 := hdata p (List.mem_cons_self p rest)
    have hstep := greedyStep_spec c r25 r75 soc prev p.1 p.2 hWF h0 h1 hprev hp
    simp only [greedyGo] at hd
    rcases List.mem_cons.mp hd with h | h
    · subst h; exact hstep
    · exact ih _ _ hstep.2.1 hstep.2.2
        hstep.1.2.2.2.1
        (fun q hq => hdata q (List.mem_cons_of_mem p hq)) d h

theorem greedyGo_chain (c : Config) (r25 r75 : ℚ) :
    ∀ (data : List (ℚ × ℚ)) (soc prev : ℚ),
      List.Chain' (fun a b => b.soc_before = a.SOC ∧ b.prev_export = a.P_grid_export)
        (greedyGo c r25 r75 soc prev data) := by
  intro data
  induction data with
  | nil => intro soc prev; simp [greedyGo]
  | cons p rest ih =>
    intro soc prev
    simp only [greedyGo]
    refine List.chain'_cons'.mpr ⟨?_, ih _ _⟩
    intro y hy
    cases rest with
    | nil => simp [greedyGo] at hy
    | cons q qs =>
      simp only [greedyGo, List.head?_cons, Option.mem_def, Option.some.injEq] at hy
      subst hy
      exact ⟨rfl, rfl⟩

theorem greedyGo_head (c : Config) (r25 r75 : ℚ) :
    ∀ (data : List (ℚ × ℚ)) (soc prev : ℚ),
      ∀ d ∈ (greedyGo c r25 r75 soc prev data).head?,
        d.soc_before = soc ∧ d.prev_export = prev := by
  intro data soc prev d hd
  cases data with
  | nil => simp [greedyGo] at hd
  | cons p rest =>
    simp only [greedyGo, List.head?_cons, Option.mem_def, Option.some.injEq] at hd
    subst hd
    exact ⟨rfl, rfl⟩

theorem greedyGo_soc_eq (c : Config) (r25 r75 : ℚ) :
    ∀ (data : List (ℚ × ℚ)) (soc prev : ℚ),
      ∀ d ∈ greedyGo c r25 r75 soc prev data,
        d.SOC = min (max (d.soc_before + d.P_charge * c.dt * c.charge_efficiency
          - d.P_discharge * c.dt / c.discharge_efficiency) 0) c.battery_capacity := by
  intro data
  induction data with
  | nil => intro soc prev d hd; simp [greedyGo] at hd
  | cons p rest ih =>
    intro soc prev d hd
    simp only [greedyGo] at hd
    rcases List.mem_cons.mp hd with h | h
    · subst h; rfl
    · exact ih _ _ d h

theorem greedyGo_soc_bounds (c : Config) (r25 r75 : ℚ)
    (hcap : 0 ≤ c.battery_capacity) :
    ∀ (data : List (ℚ × ℚ)) (soc prev : ℚ),
      ∀ d ∈ greedyGo c r25 r75 soc prev data,
        0 ≤ d.SOC ∧ d.SOC ≤ c.battery_capacity := by
  intro data
  induction data with
  | nil => intro soc prev d hd; simp [greedyGo] at hd
  | cons p rest ih =>
    intro soc prev d hd
    simp only [greedyGo] at hd
    rcases List.mem_cons.mp hd with h | h
    · subst h
      exact ⟨le_min (le_max_right _ _) hcap, min_le_right _ _⟩
    · exact ih _ _ d h

theorem greedyGo_mutex (c : Config) (r25 r75 : ℚ) :
    ∀ (data : List (ℚ × ℚ)) (soc prev : ℚ),
      ∀ d ∈ greedyGo c r25 r75 soc prev data,
        d.P_charge = 0 ∨ d.P_discharge = 0 := by
  intro data
  induction data with
  | nil => intro soc prev d hd; simp [greedyGo] at hd
  | cons p rest ih =>
    intro soc prev d hd
    simp only [greedyGo] at hd
    rcases List.mem_cons.mp hd with h | h
    · subst h; exact greedyAction_mutex c r25 r75 soc p.1 p.2
    · exact ih _ _ d h

theorem greedyGo_length (c : Config) (r25 r75 : ℚ) :
    ∀ (data : List (ℚ × ℚ)) (soc prev : ℚ),
      (greedyGo c r25 r75 soc prev data).length = data.length := by
  intro data
  induction data with
  | nil => intro soc prev; simp [greedyGo]
  | cons p rest ih => intro soc prev; simp [greedyGo, ih]

theorem gurobiFeasible_mutex (c : Config) (pv rrp : ℕ → ℚ) (n : ℕ)
    (s : GurobiSol) (h : GurobiFeasible c pv rrp n s) :
    ∀ t, t < n → (0 < s.P_charge t → s.P_discharge t = 0) ∧
      (0 < s.P_discharge t → s.P_charge t = 0) := by
  obtain ⟨hc, hd, _, _, _, _, _, _, hsum, hbigc, hbigd, _, _⟩ := h
  intro t ht
  constructor
  · intro hpos
    cases hich : s.is_charging t with
    | false =>
      have := hbigc t ht
      rw [hich] at this
      simp at this
      linarith
    | true =>
      cases hidd : s.is_discharging t with
      | false =>
        have := hbigd t ht
        rw [hidd] at this
        simp at this
        linarith [(hd t ht).1]
      | true =>
        have := hsum t ht
        rw [hich, hidd] at this
        norm_num at this
  · intro hpos
    cases hidd : s.is_discharging t with
    | false =>
      have := hbigd t ht
      rw [hidd] at this
      simp at this
      linarith
    | true =>
      cases hich : s.is_charging t with
      | false =>
        have := hbigc t ht
        rw [hich] at this
        simp at this
        linarith [(hc t ht).1]
      | true =>
        have := hsum t ht
        rw [hich, hidd] at this
        norm_num at this

end SolarPerfect
namespace SolarPerfect

section
attribute [local semireducible] Rat.ofScientific Rat.mul Rat.add Rat.sub Rat.inv

/-- Claim C1 (amended): in the exact Gurobi formulation every feasible point
satisfies the per-period balance `generation + discharge + grid_import =
charge + grid_export + curtailed` with curtailed identically zero; in the
heuristic the balance holds with a nonnegative implicit curtailment residual
in every period whose export was not raised by the downward ramp clamp
(in downward-clamped periods it can fail, see the counterexample). -/
theorem C1_energy_balance :
    (∀ (c : Config) (pv rrp : ℕ → ℚ) (n : ℕ) (s : GurobiSol),
        GurobiFeasible c pv rrp n s → ∀ t, t < n →
          pv t + s.P_discharge t + s.P_grid_import t
            = s.P_charge t + s.P_grid_export t + 0) ∧
    (∀ (c : Config) (data : List (ℚ × ℚ)),
        c.WF → 0 ≤ c.initial_soc → c.initial_soc ≤ 1 →
        (∀ p ∈ data, 0 ≤ p.1) →
        ∀ d ∈ optimize_greedy c data, ¬ rampedDown c d →
          0 ≤ d.curtailed ∧
          d.pv + d.P_discharge + d.P_grid_import
            = d.P_charge + d.P_grid_export + d.curtailed) := by
  constructor
  · intro c pv rrp n s h t ht
    obtain ⟨_, _, _, _, _, _, _, hbal, _, _, _, _, _⟩ := h
    rw [add_zero]
    exact hbal t ht
  · intro c data hWF h0 h1 hdata d hd hnd
    have hcap : 0 ≤ c.battery_capacity := hWF.2.2.2.2.1
    have hs0 : 0 ≤ c.initial_soc * c.battery_capacity := mul_nonneg h0 hcap
    have hs1 : c.initial_soc * c.battery_capacity ≤ c.battery_capacity := by
      nlinarith
    have hspec := greedyGo_mem_spec c (quantile (1/4) (data.map Prod.snd))
      (quantile (3/4) (data.map Prod.snd)) hWF data
      (c.initial_soc * c.battery_capacity) 0 hs0 hs1 le_rfl hdata d hd
    refine ⟨hspec.1.2.2.2.2.2.1 hnd, ?_⟩
    unfold Decision.curtailed
    ring

/-- Witness for C1 at a one-period instance of each engine. -/
theorem C1_energy_balance_witness :
    pvA 0 + sol1.P_discharge 0 + sol1.P_grid_import 0
      = sol1.P_charge 0 + sol1.P_grid_export 0 + 0 ∧
    0 ≤ ((optimize_greedy cfgA dataA).getD 0 dfltDecision).curtailed := by
  constructor
  · exact C1_energy_balance.1 cfgA pvA rrpA 1 sol1 (by decide) 0 (by norm_num)
  · exact (C1_energy_balance.2 cfgA dataA (by decide) (by decide) (by decide)
      (by decide) ((optimize_greedy cfgA dataA).getD 0 dfltDecision)
      (by decide) (by decide)).1

/-- Claim C1 counterexample: on a concrete three-period horizon the third
greedy period charges all 20 kW of generation into the battery, yet the
downward ramp clamp still reports 20 kW of export, so charge + export exceeds
generation + discharge + import by 20 kW and no nonnegative curtailment can
close the balance, far beyond the 1e-6 tolerance. -/
theorem C1_energy_balance_counterexample :
    ((optimize_greedy cfg1 data1).getD 2 dfltDecision).P_charge
        + ((optimize_greedy cfg1 data1).getD 2 dfltDecision).P_grid_export
        - (((optimize_greedy cfg1 data1).getD 2 dfltDecision).pv
          + ((optimize_greedy cfg1 data1).getD 2 dfltDecision).P_discharge
          + ((optimize_greedy cfg1 data1).getD 2 dfltDecision).P_grid_import)
      = 20 ∧
    (1/1000000 : ℚ) < 20 := by
  exact ⟨by decide, by norm_num⟩

/-- Claim C2: every Gurobi-feasible point pins `SOC 0` to the configured
initial state of charge and obeys the SOC recurrence; every PuLP-feasible
point obeys the same recurrence from the hard-coded initial SOC 0; the greedy
schedule starts at `initial_soc * capacity`, links each period's
`soc_before` to the previous period's `SOC`, and each `SOC` is the clipped
recurrence value. -/
theorem C2_soc_recurrence :
    (∀ (c : Config) (pv rrp : ℕ → ℚ) (n : ℕ) (s : GurobiSol),
        GurobiFeasible c pv rrp n s →
          s.SOC 0 = c.initial_soc * c.battery_capacity ∧
          ∀ t, t < n → s.SOC (t + 1) = s.SOC t
            + s.P_charge t * c.dt * c.charge_efficiency
            - s.P_discharge t * c.dt / c.discharge_efficiency) ∧
    (∀ (c : LPConfig) (pvE rrp : ℕ → ℚ) (n : ℕ) (s : LPSol),
        LPFeasible c pvE rrp n s →
          ∀ t, t < n → s.soc t = (if t = 0 then 0 else s.soc (t - 1))
            + (s.charge_pv t + s.charge_grid t) * c.CHARGE_EFFICIENCY
            - s.discharge t / c.DISCHARGE_EFFICIENCY) ∧
    (∀ (c : Config) (data : List (ℚ × ℚ)),
        (∀ d ∈ (optimize_greedy c data).head?,
          d.soc_before = c.initial_soc * c.battery_capacity ∧
            d.prev_export = 0) ∧
        List.Chain' (fun a b => b.soc_before = a.SOC) (optimize_greedy c data) ∧
        ∀ d ∈ optimize_greedy c data,
          d.SOC = min (max (d.soc_before
            + d.P_charge * c.dt * c.charge_efficiency
            - d.P_discharge * c.dt / c.discharge_efficiency) 0)
            c.battery_capacity) := by
  refine ⟨?_, ?_, ?_⟩
  · intro c pv rrp n s h
    obtain ⟨_, _, _, _, _, hinit, hrec, _, _, _, _, _, _⟩ := h
    exact ⟨hinit, hrec⟩
  · intro c pvE rrp n s h
    exact h.2.2.2.2.2.2.2.2.1
  · intro c data
    exact ⟨greedyGo_head c _ _ data _ 0,
      List.Chain'.imp (fun a b hab => hab.1) (greedyGo_chain c _ _ data _ 0),
      greedyGo_soc_eq c _ _ data _ 0⟩

/-- Witness for C2 at one-period instances of the two exact engines. -/
theorem C2_soc_recurrence_witness :
    sol1.SOC 0 = cfgA.initial_soc * cfgA.battery_capacity ∧
    sol1.SOC 1 = sol1.SOC 0 + sol1.P_charge 0 * cfgA.dt * cfgA.charge_efficiency
      - sol1.P_discharge 0 * cfgA.dt / cfgA.discharge_efficiency ∧
    lpSol0.soc 0 = (if (0 : ℕ) = 0 then 0 else lpSol0.soc (0 - 1))
      + (lpSol0.charge_pv 0 + lpSol0.charge_grid 0) * lpCfg.CHARGE_EFFICIENCY
      - lpSol0.discharge 0 / lpCfg.DISCHARGE_EFFICIENCY := by
  have h1 := C2_soc_recurrence.1 cfgA pvA rrpA 1 sol1 (by decide)
  have h2 := C2_soc_recurrence.2.1 lpCfg pvE0 rrpL 1 lpSol0 (by decide)
  exact ⟨h1.1, h1.2 0 (by norm_num), h2 0 (by norm_num)⟩

/-- Claim C3: the state of charge stays within `[0, capacity]`: in the exact
model through the SOC variable bounds, in the heuristic because every stored
SOC value is clipped to `[0, capacity]`. -/
theorem C3_soc_bounds :
    (∀ (c : Config) (pv rrp : ℕ → ℚ) (n : ℕ) (s : GurobiSol),
        GurobiFeasible c pv rrp n s →
          ∀ t, t ≤ n → 0 ≤ s.SOC t ∧ s.SOC t ≤ c.battery_capacity) ∧
    (∀ (c : Config) (data : List (ℚ × ℚ)), 0 ≤ c.battery_capacity →
        ∀ d ∈ optimize_greedy c data,
          0 ≤ d.SOC ∧ d.SOC ≤ c.battery_capacity) := by
  constructor
  · intro c pv rrp n s h
    exact h.2.2.2.2.1
  · intro c data hcap
    exact greedyGo_soc_bounds c _ _ hcap data _ 0

/-- Witness for C3 at a one-period instance of each engine. -/
theorem C3_soc_bounds_witness :
    (0 ≤ sol1.SOC 0 ∧ sol1.SOC 0 ≤ cfgA.battery_capacity) ∧
    (0 ≤ ((optimize_greedy cfgA dataA).getD 0 dfltDecision).SOC ∧
      ((optimize_greedy cfgA dataA).getD 0 dfltDecision).SOC
        ≤ cfgA.battery_capacity) := by
  constructor
  · exact C3_soc_bounds.1 cfgA pvA rrpA 1 sol1 (by decide) 0 (by norm_num)
  · exact C3_soc_bounds.2 cfgA dataA (by decide)
      ((optimize_greedy cfgA dataA).getD 0 dfltDecision) (by decide)

/-- Claim C4: charging and discharging are mutually exclusive in every
produced schedule: in the exact model through the big-M constraints with
`M = max(max_charge_power, max_discharge_power)`, in the heuristic because
every decision branch leaves at least one of the two at zero. -/
theorem C4_mutual_exclusion :
    (∀ (c : Config) (pv rrp : ℕ → ℚ) (n : ℕ) (s : GurobiSol),
        GurobiFeasible c pv rrp n s → ∀ t, t < n →
          (0 < s.P_charge t → s.P_discharge t = 0) ∧
          (0 < s.P_discharge t → s.P_charge t = 0)) ∧
    (∀ (c : Config) (data : List (ℚ × ℚ)),
        ∀ d ∈ optimize_greedy c data,
          (0 < d.P_charge → d.P_discharge = 0) ∧
          (0 < d.P_discharge → d.P_charge = 0)) := by
  constructor
  · exact gurobiFeasible_mutex
  · intro c data d hd
    rcases greedyGo_mutex c _ _ data _ 0 d hd with h | h
    · exact ⟨fun hc => absurd (h ▸ hc) (lt_irrefl 0), fun _ => h⟩
    · exact ⟨fun _ => h, fun hdq => absurd (h ▸ hdq) (lt_irrefl 0)⟩

/-- Witness for C4: a feasible Gurobi point that charges (so its discharge is
forced to zero) and a greedy period that discharges (so its charge is zero). -/
theorem C4_mutual_exclusion_witness :
    sol3.P_discharge 0 = 0 ∧
    ((optimize_greedy cfg1 data1).getD 0 dfltDecision).P_charge = 0 := by
  constructor
  · exact (C4_mutual_exclusion.1 cfgA pv3 rrp3 1 sol3 (by decide) 0
      (by norm_num)).1 (by decide)
  · exact (C4_mutual_exclusion.2 cfg1 data1
      ((optimize_greedy cfg1 data1).getD 0 dfltDecision) (by decide)).2
      (by decide)

/-- Claim C5 (amended): both exact formulations force zero export in every
period whose price is below the floor; the heuristic does not enforce the
floor in its negative-price branch, where it exports the generation surplus
left after charging (see the counterexample). -/
theorem C5_price_floor :
    (∀ (c : Config) (pv rrp : ℕ → ℚ) (n : ℕ) (s : GurobiSol),
        GurobiFeasible c pv rrp n s → ∀ t, t < n →
          rrp t < c.min_export_price → s.P_grid_export t = 0) ∧
    (∀ (c : LPConfig) (pvE rrp : ℕ → ℚ) (n : ℕ) (s : LPSol),
        LPFeasible c pvE rrp n s → ∀ t, t < n →
          rrp t < c.LGC → s.export_pv t + s.export_battery t = 0) := by
  constructor
  · intro c pv rrp n s h t ht hlt
    obtain ⟨_, _, _, _, _, _, _, _, _, _, _, _, hfloor⟩ := h
    exact hfloor t ht hlt
  · intro c pvE rrp n s h t ht hlt
    have hz := h.2.2.2.2.2.2.2.2.2.2.2 t ht (le_of_lt hlt)
    rw [hz.1, hz.2, add_zero]

/-- Witness for C5 at below-floor periods of both exact formulations. -/
theorem C5_price_floor_witness :
    sol3.P_grid_export 0 = 0 ∧
    lpSol0.export_pv 0 + lpSol0.export_battery 0 = 0 := by
  constructor
  · exact C5_price_floor.1 cfgA pv3 rrp3 1 sol3 (by decide) 0 (by norm_num)
      (by decide)
  · exact C5_price_floor.2 lpCfg pvE0 rrpL 1 lpSol0 (by decide) 0 (by norm_num)
      (by decide)

/-- Claim C5 counterexample: with the default parameters and a full battery,
a single period priced at -5 AUD/kWh (far below the floor -0.01) makes the
negative-price branch of the heuristic export all 100 kW of generation. -/
theorem C5_price_floor_counterexample :
    (optimize_greedy cfg5 [(100, -5)]).map (fun d => d.P_grid_export)
      = [100] ∧
    (-5 : ℚ) < cfg5.min_export_price ∧ (100 : ℚ) ≠ 0 := by
  exact ⟨by decide, by decide, by norm_num⟩

/-- Claim C6 (amended): the exact model bounds the export change in both
directions; the heuristic always bounds the upward change, and bounds the
downward change except in periods where the export was cut down to the
available `pv + discharge` power, which can overshoot the ramp limit (see the
counterexample). -/
theorem C6_ramp_bound :
    (∀ (c : Config) (pv rrp : ℕ → ℚ) (n : ℕ) (s : GurobiSol),
        GurobiFeasible c pv rrp n s → ∀ t, t < n → 1 ≤ t →
          s.P_grid_export t - s.P_grid_export (t - 1) ≤ c.max_ramp ∧
          s.P_grid_export (t - 1) - s.P_grid_export t ≤ c.max_ramp) ∧
    (∀ (c : Config) (data : List (ℚ × ℚ)),
        c.WF → 0 ≤ c.initial_soc → c.initial_soc ≤ 1 →
        (∀ p ∈ data, 0 ≤ p.1) →
        List.Chain' (fun a b => b.prev_export = a.P_grid_export)
          (optimize_greedy c data) ∧
        ∀ d ∈ optimize_greedy c data,
          d.P_grid_export - d.prev_export ≤ c.max_ramp ∧
          (d.prev_export - d.P_grid_export ≤ c.max_ramp ∨
            d.P_grid_export = d.pv + d.P_discharge)) := by
  constructor
  · intro c pv rrp n s h t ht h1t
    obtain ⟨_, _, _, _, _, _, _, _, _, _, _, hramp, _⟩ := h
    exact hramp t ht h1t
  · intro c data hWF h0 h1 hdata
    have hcap : 0 ≤ c.battery_capacity := hWF.2.2.2.2.1
    have hs0 : 0 ≤ c.initial_soc * c.battery_capacity := mul_nonneg h0 hcap
    have hs1 : c.initial_soc * c.battery_capacity ≤ c.battery_capacity := by
      nlinarith
    refine ⟨List.Chain'.imp (fun a b hab => hab.2)
      (greedyGo_chain c _ _ data _ 0), ?_⟩
    intro d hd
    have hspec := greedyGo_mem_spec c (quantile (1/4) (data.map Prod.snd))
      (quantile (3/4) (data.map Prod.snd)) hWF data
      (c.initial_soc * c.battery_capacity) 0 hs0 hs1 le_rfl hdata d hd
    exact ⟨hspec.1.2.2.2.2.2.2.1, hspec.1.2.2.2.2.2.2.2⟩

/-- Witness for C6 at a two-period Gurobi point and a one-period greedy run. -/
theorem C6_ramp_bound_witness :
    (sol1.P_grid_export 1 - sol1.P_grid_export 0 ≤ cfgA.max_ramp ∧
      sol1.P_grid_export 0 - sol1.P_grid_export 1 ≤ cfgA.max_ramp) ∧
    ((optimize_greedy cfgA dataA).getD 0 dfltDecision).P_grid_export
      - ((optimize_greedy cfgA dataA).getD 0 dfltDecision).prev_export
      ≤ cfgA.max_ramp := by
  constructor
  · exact C6_ramp_bound.1 cfgA pvA rrpA 2 sol1 (by decide) 1 (by norm_num)
      (by norm_num)
  · exact ((C6_ramp_bound.2 cfgA dataA (by decide) (by decide) (by decide)
      (by decide)).2 ((optimize_greedy cfgA dataA).getD 0 dfltDecision)
      (by decide)).1

/-- Claim C6 counterexample: on a concrete three-period horizon with ramp
limit 100 kW, the heuristic's export drops from 200 kW to 0 kW between the
second and third periods (the clamped export is then cut to the available
power 0), exceeding the ramp limit by 100 kW, far beyond any tolerance. -/
theorem C6_ramp_bound_counterexample :
    ((optimize_greedy cfg6 data6).getD 1 dfltDecision).P_grid_export = 200 ∧
    ((optimize_greedy cfg6 data6).getD 2 dfltDecision).P_grid_export = 0 ∧
    ((optimize_greedy cfg6 data6).getD 2 dfltDecision).prev_export = 200 ∧
    cfg6.max_ramp + 1/1000000
      < ((optimize_greedy cfg6 data6).getD 1 dfltDecision).P_grid_export
        - ((optimize_greedy cfg6 data6).getD 2 dfltDecision).P_grid_export := by
  exact ⟨by decide, by decide, by decide, by decide⟩

/-- Claim C7: on a one-period horizon priced at -0.005 AUD/kWh with a full
battery, every feasible point of the exact model has objective at most 1/12
(attained by `sol7`, so the optimum is 1/12), while the heuristic's reported
net revenue is 37/240 > 1/12: the exact scheduler underperforms the
heuristic because its formulation has no curtailment variable and must
export all surplus generation at the negative price, whereas the heuristic's
ramp clamp curtails most of it. -/
theorem C7_exact_below_heuristic :
    (∀ s : GurobiSol, GurobiFeasible cfg7 pv7 rrp7 1 s →
        gurobiObjective cfg7 pv7 rrp7 1 s ≤ 1/12) ∧
    GurobiFeasible cfg7 pv7 rrp7 1 sol7 ∧
    gurobiObjective cfg7 pv7 rrp7 1 sol7 = 1/12 ∧
    total_net_revenue cfg7 (optimize_greedy cfg7 data7) = 37/240 ∧
    (1/12 : ℚ) < 37/240 := by
  refine ⟨?_, by decide, by decide, by decide, by norm_num⟩
  intro s h
  have hmux := gurobiFeasible_mutex cfg7 pv7 rrp7 1 s h
  obtain ⟨hc, hd, hi, he, hsoc, hinit, hrec, hbal, _, _, _, _, _⟩ := h
  have hc0 := (hc 0 (by norm_num)).1
  have hd0 := (hd 0 (by norm_num)).1
  have hi0 := hi 0 (by norm_num)
  have hrec0 := hrec 0 (by norm_num)
  have hsoc1 := (hsoc 1 (by norm_num)).2
  have hbal0 := hbal 0 (by norm_num)
  have hch : s.P_charge 0 = 0 := by
    by_contra hne
    have hpos : 0 < s.P_charge 0 := lt_of_le_of_ne hc0 (Ne.symm hne)
    have hdz : s.P_discharge 0 = 0 := (hmux 0 (by norm_num)).1 hpos
    rw [hinit, hdz] at hrec0
    norm_num [cfg7, Config.dt] at hrec0 hsoc1
    linarith
  rw [hch] at hbal0
  norm_num [pv7] at hbal0
  have hobj : gurobiObjective cfg7 pv7 rrp7 1 s
      = s.P_grid_export 0 * ((5:ℚ)/60) * (-1/200)
        - s.P_grid_import 0 * ((5:ℚ)/60) * (-1/200)
        + 200 * ((5:ℚ)/60) * (1/100) := by
    norm_num [gurobiObjective, Finset.sum_range_one, cfg7, Config.dt,
      Config.lgc, pv7, rrp7]
  rw [hobj]
  linarith

/-- Witness for C7: the objective bound applied to the concrete feasible
point `sol7`. -/
theorem C7_exact_below_heuristic_witness :
    gurobiObjective cfg7 pv7 rrp7 1 sol7 ≤ 1/12 :=
  C7_exact_below_heuristic.1 sol7 (by decide)

/-- Claim C8 (amended): the gurobi and simplified reporters compute the four
revenue columns exactly as claimed, with the incentive proportional to the
generated power; the daytime reporter instead computes its incentive from
`grid_export + curtailed` (see the counterexample). -/
theorem C8_revenue_formulas :
    (∀ (c : Config) (e i pvp rrp : ℚ),
        extract_results_revenue c e i pvp rrp
          = ⟨e * c.dt * rrp, i * c.dt * rrp, pvp * c.dt * c.lgc,
              e * c.dt * rrp - i * c.dt * rrp + pvp * c.dt * c.lgc⟩) ∧
    (∀ (c : Config) (e i pvp rrp : ℚ),
        calculate_revenue_row c e i pvp rrp
          = ⟨e * c.dt * rrp, i * c.dt * rrp, pvp * c.dt * c.lgc,
              e * c.dt * rrp - i * c.dt * rrp + pvp * c.dt * c.lgc⟩) ∧
    (∀ (c : Config) (e i curt rrp : ℚ),
        daytime_calculate_revenue_row c e i curt rrp
          = ⟨e * c.dt * rrp, i * c.dt * rrp, (e + curt) * c.dt * c.lgc,
              e * c.dt * rrp - i * c.dt * rrp + (e + curt) * c.dt * c.lgc⟩) :=
  ⟨fun _ _ _ _ _ => rfl, fun _ _ _ _ _ => rfl, fun _ _ _ _ _ => rfl⟩

/-- Claim C8 counterexample: a period with 100 kW of export, no curtailment
and zero generation: the daytime reporter returns an incentive of 1/12 AUD,
while an incentive proportional to generation power would return 0. -/
theorem C8_revenue_formulas_counterexample :
    (daytime_calculate_revenue_row cfgA 100 0 0 5).lgc_revenue = 1/12 ∧
    (0 : ℚ) * cfgA.dt * cfgA.lgc = 0 ∧ ((1 : ℚ)/12 ≠ 0) := by
  exact ⟨by decide, by norm_num, by norm_num⟩

/-- Claim C9 (amended): the generation model performs no input validation:
a negative irradiance value is silently converted into a negative generation
power (in both the simplified/gurobi `load_data` and the LP script), and the
scheduler consumes any series without failing. -/
theorem C9_no_input_validation :
    (∀ (c : Config) (poa : ℚ), 0 < c.poa_to_power_ratio → poa < 0 →
        pv_power c poa < 0) ∧
    (∀ (pv_capacity conv poa : ℚ), 0 < pv_capacity → 0 < conv → poa < 0 →
        PV_Power_kW pv_capacity conv poa < 0) ∧
    (∀ (c : Config) (rows : List (ℚ × ℚ)),
        load_data c rows = rows.map fun pr => (pv_power c pr.1, pr.2)) ∧
    (∀ (c : Config) (data : List (ℚ × ℚ)),
        (optimize_greedy c data).length = data.length) := by
  refine ⟨?_, ?_, fun _ _ => rfl, ?_⟩
  · intro c poa hr hpoa
    unfold pv_power
    exact div_neg_of_neg_of_pos (mul_neg_of_neg_of_pos hpoa hr) (by norm_num)
  · intro pvc conv poa hc hr hpoa
    unfold PV_Power_kW
    exact div_neg_of_neg_of_pos
      (mul_neg_of_neg_of_pos (mul_neg_of_neg_of_pos hpoa hc) hr) (by norm_num)
  · intro c data
    exact greedyGo_length c _ _ data _ 0

/-- Witness for C9 at irradiance -5 W/m². -/
theorem C9_no_input_validation_witness :
    pv_power cfgA (-5) < 0 ∧ PV_Power_kW 1000 (17/100) (-5) < 0 :=
  ⟨C9_no_input_validation.1 cfgA (-5) (by decide) (by norm_num),
    C9_no_input_validation.2.1 1000 (17/100) (-5) (by norm_num) (by norm_num)
      (by norm_num)⟩

/-- Claim C9 counterexample: an input series containing irradiance -5 is not
rejected: `load_data` produces the negative generation power -379/20000 kW
and the scheduler runs on it, producing a full-length schedule. -/
theorem C9_no_input_validation_counterexample :
    load_data cfgA [(-5, 3)] = [(-379/20000, 3)] ∧ (-379/20000 : ℚ) < 0 ∧
    (optimize_greedy cfgA (load_data cfgA [(-5, 3)])).length = 1 := by
  exact ⟨by decide, by norm_num, by decide⟩

/-- Claim C10: the Gurobi formulation has no curtailment variable, so every
feasible point satisfies the power balance exactly, and in a below-floor
period with positive generation all generation plus any grid import is
absorbed by battery charging (and the battery cannot discharge). -/
theorem C10_exact_has_no_curtailment :
    ∀ (c : Config) (pv rrp : ℕ → ℚ) (n : ℕ) (s : GurobiSol),
      GurobiFeasible c pv rrp n s → ∀ t, t < n →
        pv t + s.P_discharge t + s.P_grid_import t
          = s.P_charge t + s.P_grid_export t ∧
        (rrp t < c.min_export_price → 0 < pv t →
          s.P_charge t = pv t + s.P_grid_import t ∧ s.P_discharge t = 0) := by
  intro c pv rrp n s h t ht
  have hmux := gurobiFeasible_mutex c pv rrp n s h
  obtain ⟨hc, hd, hi, _, _, _, _, hbal, _, _, _, _, hfloor⟩ := h
  refine ⟨hbal t ht, fun hflo hpv => ?_⟩
  have he0 : s.P_grid_export t = 0 := hfloor t ht hflo
  have hb := hbal t ht
  rw [he0, add_zero] at hb
  rcases eq_or_lt_of_le (hc t ht).1 with hch0 | hchpos
  · exfalso
    rw [← hch0] at hb
    have hd' := (hd t ht).1
    have hi' := hi t ht
    linarith
  · have hdz : s.P_discharge t = 0 := (hmux t ht).1 hchpos
    rw [hdz] at hb
    exact ⟨by linarith, hdz⟩

/-- Witness for C10 at a below-floor period: all 100 kW of generation is
absorbed by charging. -/
theorem C10_exact_has_no_curtailment_witness :
    sol3.P_charge 0 = pv3 0 + sol3.P_grid_import 0 ∧ sol3.P_discharge 0 = 0 :=
  (C10_exact_has_no_curtailment cfgA pv3 rrp3 1 sol3 (by decide) 0
    (by norm_num)).2 (by decide) (by decide)

end

end SolarPerfect
